import Mathlib

/-!
Verification development for the Relief-Matrix disaster-relief inventory
application (`src/app.py`).  The Flask route handlers and helper functions are
shallowly embedded as pure Lean functions over explicit state: the relational
store becomes lists of rows, the SQLAlchemy session becomes an explicit list of
session operations applied by `runOps`, and external collaborators (Python's
`date.fromisoformat`, the filesystem, `time.sleep`) are modelled by executable
Lean counterparts or by explicit event traces.
-/

namespace ReliefMatrix

/-- A calendar date as carried by Python `datetime.date` values in `app.py`. -/
structure PyDate where
  year : Nat
  month : Nat
  day : Nat
deriving DecidableEq, Repr

/-- Gregorian leap-year rule used by Python's `datetime` module. -/
def isLeapYear (y : Nat) : Bool :=
  (y % 4 == 0 && y % 100 != 0) || y % 400 == 0

/-- Number of days in a month, as validated by Python's `datetime.date`. -/
def daysInMonth (y m : Nat) : Nat :=
  if m == 2 then (if isLeapYear y then 29 else 28)
  else if m == 4 || m == 6 || m == 9 || m == 11 then 30
  else 31

/-- Split a character list at every occurrence of `c`, keeping empty pieces,
mirroring Python `str.split(sep)` / Lean `String.split` semantics. -/
def splitOnChar (c : Char) : List Char → List (List Char)
  | [] => [[]]
  | ch :: rest =>
    let r := splitOnChar c rest
    if ch = c then [] :: r
    else
      match r with
      | [] => [[ch]]
      | w :: ws => (ch :: w) :: ws

/-- Decimal value of a digit-character list (most significant first). -/
def charsToNat (cs : List Char) : Nat :=
  cs.foldl (fun acc c => 10 * acc + (c.toNat - ('0').toNat)) 0

/-- Modelled external collaborator: Python's `date.fromisoformat` on the strict
`YYYY-MM-DD` form used by the app's date inputs.  Returns `none` exactly when
the Python call raises `ValueError`: wrong shape, non-digit characters, or a
month/day outside the calendar range. -/
def fromisoformat (s : String) : Option PyDate :=
  match splitOnChar '-' s.toList with
  | [ys, ms, ds] =>
    if ys.length == 4 && ms.length == 2 && ds.length == 2 &&
       ys.all Char.isDigit && ms.all Char.isDigit && ds.all Char.isDigit then
      let y := charsToNat ys
      let m := charsToNat ms
      let d := charsToNat ds
      if 1 ≤ y && 1 ≤ m && m ≤ 12 && 1 ≤ d && d ≤ daysInMonth y m then
        some ⟨y, m, d⟩
      else none
    else none
  | _ => none

/-- Modelled external collaborator: Python's `str.strip()` — remove leading
and trailing whitespace. -/
def pyStrip (s : String) : String :=
  String.mk (((s.toList.dropWhile Char.isWhitespace).reverse.dropWhile
    Char.isWhitespace).reverse)

/-- Function `slugify` from `app.py`: lowercase the text, keep only alphanumeric
characters, spaces and hyphens, then join the whitespace-separated words with
single hyphens (Python: `"-".join("".join(...).split())`). -/
def slugify (text : String) : String :=
  let lowered := text.toList.map Char.toLower
  let kept := lowered.filter (fun ch => ch.isAlphanum || ch == ' ' || ch == '-')
  let words := (splitOnChar ' ' kept).filter (· ≠ [])
  String.mk (List.intercalate ['-'] words)

/-- Constant `DISASTERS_ROOT` from `app.py` (`BASE_DIR / "Disasters"`), relative to the
application base directory. -/
def DISASTERS_ROOT : String := "Disasters"

/-- Python expression `start_date.strftime(percent-Y)`: the decimal year component. -/
def strftimeY (d : PyDate) : String := Nat.repr d.year

/-- Function `ensure_disaster_folder` from `app.py`: builds the folder name
`{year}-{slug}-{did}` and returns the path under `DISASTERS_ROOT`.  The
`mkdir` side effects on the four subdirectories are external filesystem
collaborators and carry no information used by the claims. -/
def ensure_disaster_folder (name : String) (start_date : PyDate) (did : Nat) : String :=
  let slug := slugify name
  let folder_name := strftimeY start_date ++ "-" ++ slug ++ "-" ++ Nat.repr did
  DISASTERS_ROOT ++ "/" ++ folder_name

/-! ## Tenant partition data model

The four per-disaster tables of `app.py` (`TenantWarehouse`, `TenantReliefItem`,
`TenantBeneficiary`, `TenantDistribution`).  Auto-increment primary keys are
modelled as `length + 1` of the corresponding table.  `Integer` columns hold
Python ints, modelled as `Int`. -/

/-- A row of `disaster_{id}_warehouse`. -/
structure Warehouse where
  warehouseID : Nat
  location : String
  capacity : Int
deriving DecidableEq, Repr

/-- A row of `disaster_{id}_relief_item`. -/
structure ReliefItem where
  itemID : Nat
  warehouseID : Nat
  name : String
  category : String
  quantity : Int
deriving DecidableEq, Repr

/-- A row of `disaster_{id}_beneficiary`. -/
structure Beneficiary where
  beneficiaryID : Nat
  name : String
  location : String
  contact : String
deriving DecidableEq, Repr

/-- A row of `disaster_{id}_distribution`. -/
structure Distribution where
  distID : Nat
  beneficiaryID : Nat
  itemID : Nat
  quantity : Int
  date : PyDate
deriving DecidableEq, Repr

/-- The durable contents of one disaster's four partition tables. -/
structure TenantState where
  warehouses : List Warehouse
  items : List ReliefItem
  beneficiaries : List Beneficiary
  distributions : List Distribution
deriving DecidableEq, Repr

/-! ## Session semantics

`db.session` in `app.py` accumulates pending changes that become durable only
at `db.session.commit()`; `db.session.rollback()` (or simply never reaching
`commit`) discards them.  A route handler is embedded as the list of session
operations it issues; `runOps` executes them against a durable state, keeping
the pending state separate until a `commit`. -/

/-- A primitive `db.session` operation issued by a route handler. -/
inductive SessionOp
  /-- `db.session.add(TenantWarehouse(...))` (id assigned at flush). -/
  | addWarehouse (location : String) (capacity : Int)
  /-- `db.session.add(TenantReliefItem(...))`. -/
  | addItem (warehouseID : Nat) (name category : String) (quantity : Int)
  /-- `db.session.add(TenantBeneficiary(...))`. -/
  | addBeneficiary (name location contact : String)
  /-- `db.session.add(TenantDistribution(...))`. -/
  | addDistribution (beneficiaryID itemID : Nat) (quantity : Int) (date : PyDate)
  /-- `item.Quantity = max(0, item.Quantity - qty)` on a loaded row. -/
  | decItemFloor (itemID : Nat) (qty : Int)
  /-- `db.session.commit()`. -/
  | commit
deriving DecidableEq, Repr

/-- Effect of one non-`commit` session operation on the pending state. -/
def applyOp (p : TenantState) : SessionOp → TenantState
  | .addWarehouse loc cap =>
    { p with warehouses :=
        p.warehouses ++ [⟨p.warehouses.length + 1, loc, cap⟩] }
  | .addItem wid name cat qty =>
    { p with items :=
        p.items ++ [⟨p.items.length + 1, wid, name, cat, qty⟩] }
  | .addBeneficiary name loc contact =>
    { p with beneficiaries :=
        p.beneficiaries ++ [⟨p.beneficiaries.length + 1, name, loc, contact⟩] }
  | .addDistribution bid iid qty d =>
    { p with distributions :=
        p.distributions ++ [⟨p.distributions.length + 1, bid, iid, qty, d⟩] }
  | .decItemFloor iid qty =>
    { p with items := p.items.map (fun it =>
        if it.itemID = iid then { it with quantity := max 0 (it.quantity - qty) } else it) }
  | .commit => p

/-- Execute session operations: `durable` is the committed store, `pending`
the session view; a trailing uncommitted suffix is rolled back (discarded). -/
def runOpsAux (durable pending : TenantState) : List SessionOp → TenantState
  | [] => durable
  | .commit :: rest => runOpsAux pending pending rest
  | op :: rest => runOpsAux durable (applyOp pending op) rest

/-- Run a handler's session operations against durable state `s`. -/
def runOps (s : TenantState) (ops : List SessionOp) : TenantState :=
  runOpsAux s s ops

/-! ## Route handlers over the partition -/

/-- Outcome of the `distribute` POST handler, following the spec's error
taxonomy: `validationError` is the "Beneficiary name and positive quantity are
required" flash, `notFoundError` the `get_or_404` abort, and
`insufficientInventoryError` the "Not enough inventory" flash. -/
inductive DistributeResult
  | validationError
  | notFoundError
  | insufficientInventoryError
  | ok (distID : Nat)
deriving DecidableEq, Repr

/-- The session operations issued by the success path of `distribute`:
add beneficiary, flush (id = next id), add distribution referencing the new
beneficiary and the item, floor-decrement the item's quantity, commit. -/
def distributeOps (s : TenantState) (bname bloc bcontact : String)
    (itemID : Nat) (qty : Int) (when : PyDate) : List SessionOp :=
  let benID := s.beneficiaries.length + 1
  [ .addBeneficiary bname bloc bcontact,
    .addDistribution benID itemID qty when,
    .decItemFloor itemID qty,
    .commit ]

/-- Handler `distribute` from `app.py` (route
`/disasters/<id>/distribute`): validates the form, checks item availability,
then runs the session operations.  Form fields arrive stripped as in the code
(`request.form.get(...).strip()`). -/
def distribute (s : TenantState) (bnameRaw blocRaw bcontactRaw : String)
    (itemID : Nat) (qty : Int) (when : PyDate) : DistributeResult × TenantState :=
  let bname := pyStrip bnameRaw
  let bloc := pyStrip blocRaw
  let bcontact := pyStrip bcontactRaw
  if bname = "" ∨ qty ≤ 0 then
    (.validationError, s)
  else
    match s.items.find? (fun it => it.itemID == itemID) with
    | none => (.notFoundError, s)
    | some item =>
      if item.quantity < qty then
        (.insufficientInventoryError, s)
      else
        (.ok (s.distributions.length + 1),
         runOps s (distributeOps s bname bloc bcontact itemID qty when))

/-- Outcome of the `add_resources` POST handler. -/
inductive AddResourcesResult
  | validationError
  | ok (warehouseID itemID : Nat)
deriving DecidableEq, Repr

/-- The session operations issued by the success path of `add_resources`:
add warehouse (capacity floored at 0), flush (id = next id), add item
referencing the new warehouse, commit. -/
def addResourcesOps (s : TenantState) (location : String) (capacity : Int)
    (itemName itemCat : String) (itemQty : Int) : List SessionOp :=
  let whID := s.warehouses.length + 1
  [ .addWarehouse location (max 0 capacity),
    .addItem whID itemName itemCat itemQty,
    .commit ]

/-- Handler `add_resources` from `app.py` (route
`/disasters/<id>/resources/new`): validates location, item name and quantity,
then inserts the warehouse and the item in one transaction. -/
def add_resources (s : TenantState) (locationRaw : String) (capacity : Int)
    (itemNameRaw itemCatRaw : String) (itemQty : Int) :
    AddResourcesResult × TenantState :=
  let location := pyStrip locationRaw
  let itemName := pyStrip itemNameRaw
  let itemCat := pyStrip itemCatRaw
  if location = "" ∨ itemName = "" ∨ itemQty ≤ 0 then
    (.validationError, s)
  else
    (.ok (s.warehouses.length + 1) (s.items.length + 1),
     runOps s (addResourcesOps s location capacity itemName itemCat itemQty))

/-! ## Disaster registry -/

/-- A row of the `disaster` table. -/
structure Disaster where
  disasterID : Nat
  name : String
  type_ : String
  location : String
  startDate : PyDate
  endDate : Option PyDate
  severity : String
  folderPath : String
deriving DecidableEq, Repr

/-- Outcome of the `create_disaster` POST handler: `validationError` covers the
two validation flashes (missing name/start date, unparseable start date);
`genericError` is the outer `except Exception` path (rollback plus generic
flash); `okTableWarning` is the partial-success path in which the disaster row
is committed but tenant-table setup failed. -/
inductive CreateDisasterResult
  | validationError
  | genericError
  | okTableWarning (disasterID : Nat)
  | ok (disasterID : Nat)
deriving DecidableEq, Repr

/-- Handler `create_disaster` from `app.py` (route `/disasters/new`)
acting on the registry table (a list of `Disaster` rows).  `tableSetupOk`
abstracts whether the post-commit tenant-table setup
(`check_tenant_tables_exist` / `create_tenant_tables`) raised: its failure is
caught by the inner `except` and leaves the committed row in place. -/
def create_disaster (reg : List Disaster)
    (nameRaw typeRaw locationRaw startRaw endRaw severityRaw : String)
    (tableSetupOk : Bool) : CreateDisasterResult × List Disaster :=
  let name := pyStrip nameRaw
  let type_ := pyStrip typeRaw
  let location := pyStrip locationRaw
  let startS := pyStrip startRaw
  let endS := pyStrip endRaw
  let severity := pyStrip severityRaw
  if name = "" ∨ startS = "" then
    (.validationError, reg)
  else
    match fromisoformat startS with
    | none => (.validationError, reg)
    | some start_date =>
      -- `end_date = date.fromisoformat(end_date_str) if end_date_str else None`:
      -- a ValueError here is caught by the outer handler (generic error).
      match (if endS = "" then some none else (fromisoformat endS).map some) with
      | none => (.genericError, reg)
      | some end_date =>
        let did := reg.length + 1
        let folder := ensure_disaster_folder name start_date did
        let row : Disaster :=
          ⟨did, name, type_, location, start_date, end_date, severity, folder⟩
        let reg' := reg ++ [row]
        if tableSetupOk then (.ok did, reg')
        else (.okTableWarning did, reg')

/-! ## Tenant table catalog (`create_tenant_tables`, `check_tenant_tables_exist`)

`Table.create(db.engine, checkfirst=True)` consults the live catalog and only
creates the table when absent; the catalog is modelled as the list of existing
table names. -/

/-- The four table names of a disaster's partition, in creation order. -/
def tenantTableNames (disaster_id : Nat) : List String :=
  let pfx := "disaster_" ++ Nat.repr disaster_id
  [ pfx ++ "_warehouse",
    pfx ++ "_relief_item",
    pfx ++ "_beneficiary",
    pfx ++ "_distribution" ]

/-- Call `Table.create(engine, checkfirst=True)`: create the table only if it is
not already in the live catalog. -/
def createTableChecked (catalog : List String) (t : String) : List String :=
  if t ∈ catalog then catalog else catalog ++ [t]

/-- Catalog effect of `create_tenant_tables` from `app.py`: the four
`checkfirst` creates, in order.  (The lock-retry control flow around these
creates is modelled separately by `create_tenant_tables_retry`.) -/
def create_tenant_tables_catalog (catalog : List String) (disaster_id : Nat) :
    List String :=
  (tenantTableNames disaster_id).foldl createTableChecked catalog

/-- Function `check_tenant_tables_exist` from `app.py`: all four partition tables are
present in the live catalog (`inspector.get_table_names()`). -/
def check_tenant_tables_exist (catalog : List String) (disaster_id : Nat) : Bool :=
  (tenantTableNames disaster_id).all (fun t => catalog.contains t)

/-! ## Lock-retry control flow of `create_tenant_tables`

The body of the `for attempt in range(max_retries)` loop either succeeds,
raises an `OperationalError` whose message contains "database is locked",
raises some other `OperationalError`, or raises a non-`OperationalError`
exception (e.g. an `IntegrityError` constraint violation); the map from
attempt index to that outcome is the model's input. -/

/-- Outcome of one attempt of the table-creation block. -/
inductive AttemptResult
  /-- All four `Table.create` calls succeeded. -/
  | success
  /-- `OperationalError` with "database is locked" in its message. -/
  | opErrorLocked
  /-- `OperationalError` with any other message. -/
  | opErrorOther
  /-- An exception that is not an `OperationalError` (e.g. a data/constraint
  error); the `except OperationalError` clause does not catch it. -/
  | dataError
deriving DecidableEq, Repr

/-- Result of running the retry loop: how many attempts were made and which
`time.sleep` delays (in milliseconds; `retry_delay` starts at 0.5 s) were
slept, ending in success or in a propagated error. -/
inductive RetryOutcome
  | success (attemptsMade : Nat) (delays : List Nat)
  | failure (err : AttemptResult) (attemptsMade : Nat) (delays : List Nat)
deriving DecidableEq, Repr

/-- Constant `max_retries = 3` from `app.py`. -/
def max_retries : Nat := 3

/-- Initial `retry_delay = 0.5` seconds, in milliseconds. -/
def initial_retry_delay : Nat := 500

/-- One step per remaining loop iteration: `attempt` is the Python loop index,
`delay` the current `retry_delay`, `delays` the sleeps performed so far
(reversed). -/
def retryGo (attempts : Nat → AttemptResult) :
    Nat → Nat → Nat → List Nat → RetryOutcome
  | 0, attempt, _, delays => .success attempt delays.reverse
  | remaining + 1, attempt, delay, delays =>
    match attempts attempt with
    | .success => .success (attempt + 1) delays.reverse
    | .opErrorLocked =>
      if attempt < max_retries - 1 then
        retryGo attempts remaining (attempt + 1) (delay * 2) (delay :: delays)
      else
        .failure .opErrorLocked (attempt + 1) delays.reverse
    | .opErrorOther => .failure .opErrorOther (attempt + 1) delays.reverse
    | .dataError => .failure .dataError (attempt + 1) delays.reverse

/-- Retry control flow of `create_tenant_tables` from `app.py`: up to
`max_retries` attempts, sleeping `retry_delay` and doubling it after a
"database is locked" failure that is not the last attempt; every other
exception, and a lock failure on the last attempt, propagates. -/
def create_tenant_tables_retry (attempts : Nat → AttemptResult) : RetryOutcome :=
  retryGo attempts max_retries 0 initial_retry_delay []

/-- Number of attempts recorded in a `RetryOutcome`. -/
def RetryOutcome.attempts : RetryOutcome → Nat
  | .success n _ => n
  | .failure _ n _ => n

/-- The sleep delays recorded in a `RetryOutcome`. -/
def RetryOutcome.sleeps : RetryOutcome → List Nat
  | .success _ ds => ds
  | .failure _ _ ds => ds

/-! ## Model cache (`create_tenant_models`, `get_tenant_models`)

The handle is the tuple of the four dynamically built model classes; its
observable content is the four table names derived from the disaster id.
`_tenant_model_cache` is a process-wide dict keyed by `f"disaster_{id}"`. -/

/-- The tuple of four model classes returned by `create_tenant_models`,
identified by their table names. -/
structure TenantModels where
  warehouseTable : String
  reliefItemTable : String
  beneficiaryTable : String
  distributionTable : String
deriving DecidableEq, Repr

/-- The model classes built for a disaster id (class construction in
`create_tenant_models`). -/
def mkTenantModels (disaster_id : Nat) : TenantModels :=
  let pfx := "disaster_" ++ Nat.repr disaster_id
  ⟨pfx ++ "_warehouse", pfx ++ "_relief_item",
   pfx ++ "_beneficiary", pfx ++ "_distribution"⟩

/-- The process-wide `_tenant_model_cache` dict. -/
def ModelCache := List (String × TenantModels)

/-- Observable effects of the partition-manager functions: in-memory class
construction versus table-creation I/O against the database. -/
inductive TenantEvent
  /-- The four `type(...)` class constructions in `create_tenant_models`. -/
  | constructModels (disaster_id : Nat)
  /-- The four `Table.create` calls in `create_tenant_tables`. -/
  | tableCreation (disaster_id : Nat)
deriving DecidableEq, Repr

/-- Function `create_tenant_models` from `app.py`: return the cached handle if present
(no construction, no I/O); otherwise construct the four classes, cache the
handle, and return it. -/
def create_tenant_models (cache : ModelCache) (disaster_id : Nat) :
    TenantModels × ModelCache × List TenantEvent :=
  let pfx := "disaster_" ++ Nat.repr disaster_id
  match cache.lookup pfx with
  | some handle => (handle, cache, [])
  | none =>
    let handle := mkTenantModels disaster_id
    (handle, (pfx, handle) :: cache, [.constructModels disaster_id])

/-- Function `get_tenant_models` from `app.py`: delegates to `create_tenant_models`. -/
def get_tenant_models (cache : ModelCache) (disaster_id : Nat) :
    TenantModels × ModelCache × List TenantEvent :=
  create_tenant_models cache disaster_id

/-- Cache/catalog/event view of `create_tenant_tables` from `app.py`: first
obtain (and thereby cache) the models via `create_tenant_models`, then perform
the table-creation I/O. -/
def create_tenant_tables_cached (cache : ModelCache) (catalog : List String)
    (disaster_id : Nat) :
    TenantModels × ModelCache × List String × List TenantEvent :=
  let r := create_tenant_models cache disaster_id
  (r.1, r.2.1, create_tenant_tables_catalog catalog disaster_id,
   r.2.2 ++ [.tableCreation disaster_id])

/-! ## Helper lemmas -/

/-- Session operations executed without reaching a `commit` leave the durable
state untouched (the pending changes are rolled back). -/
theorem runOpsAux_of_commit_notMem (d p : TenantState) (l : List SessionOp)
    (h : SessionOp.commit ∉ l) : runOpsAux d p l = d := by
  induction l generalizing p with
  | nil => rfl
  | cons op rest ih =>
    cases op <;> simp only [runOpsAux] <;> first
      | exact ih _ (by intro hm; exact h (List.mem_cons_of_mem _ hm))
      | exact absurd (List.mem_cons_self _ _) h

/-- A handler run that never commits leaves the durable state unchanged. -/
theorem runOps_of_commit_notMem (s : TenantState) (l : List SessionOp)
    (h : SessionOp.commit ∉ l) : runOps s l = s :=
  runOpsAux_of_commit_notMem s s l h

/-- Decimal digit list of a natural number, most significant digit first. -/
def natDigits (n : Nat) : List Char :=
  if _ : n < 10 then [Nat.digitChar n]
  else natDigits (n / 10) ++ [Nat.digitChar (n % 10)]
decreasing_by exact Nat.div_lt_self (by omega) (by omega)

theorem natDigits_ne_nil (n : Nat) : natDigits n ≠ [] := by
  rw [natDigits]
  split <;> simp

theorem toDigitsCore_eq_natDigits (f n : Nat) (ds : List Char) (h : n < f) :
    Nat.toDigitsCore 10 f n ds = natDigits n ++ ds := by
  induction f generalizing n ds with
  | zero => omega
  | succ f ih =>
    rw [Nat.toDigitsCore, natDigits]
    by_cases h10 : n < 10
    · have hdiv : n / 10 = 0 := Nat.div_eq_of_lt h10
      have hmod : n % 10 = n := Nat.mod_eq_of_lt h10
      simp [hdiv, hmod, h10]
    · have hdiv : n / 10 ≠ 0 := by
        intro hz
        exact h10 (by omega)
      have hlt : n / 10 < f := by
        have := Nat.div_lt_self (by omega : 0 < n) (by omega : 1 < 10)
        omega
      simp only [hdiv, if_neg, dif_neg h10, ih _ _ hlt, List.append_assoc,
        List.singleton_append]
      simp

theorem repr_eq_natDigits (n : Nat) : Nat.repr n = String.mk (natDigits n) := by
  show (Nat.toDigits 10 n).asString = _
  rw [Nat.toDigits, toDigitsCore_eq_natDigits (n + 1) n [] (by omega)]
  simp [List.asString]

theorem digitChar_isDigit : ∀ r, r < 10 → (Nat.digitChar r).isDigit = true := by
  decide

theorem natDigits_all_digits (n : Nat) :
    ∀ c ∈ natDigits n, c.isDigit = true := by
  induction n using Nat.strong_induction_on with
  | _ n ih =>
    intro c hc
    rw [natDigits] at hc
    by_cases h10 : n < 10
    · rw [dif_pos h10] at hc
      simp only [List.mem_singleton] at hc
      subst hc
      exact digitChar_isDigit n h10
    · rw [dif_neg h10] at hc
      rcases List.mem_append.mp hc with hm | hm
      · exact ih (n / 10) (Nat.div_lt_self (by omega) (by omega)) c hm
      · simp only [List.mem_singleton] at hm
        subst hm
        exact digitChar_isDigit _ (Nat.mod_lt _ (by omega))

theorem dash_notMem_natDigits (n : Nat) : '-' ∉ natDigits n := by
  intro h
  have := natDigits_all_digits n '-' h
  simp [Char.isDigit] at this

theorem digitChar_inj : ∀ m, m < 10 → ∀ n, n < 10 →
    Nat.digitChar m = Nat.digitChar n → m = n := by
  decide

theorem natDigits_of_lt (n : Nat) (h : n < 10) :
    natDigits n = [Nat.digitChar n] := by
  rw [natDigits]
  exact dif_pos h

theorem natDigits_of_ge (n : Nat) (h : ¬ n < 10) :
    natDigits n = natDigits (n / 10) ++ [Nat.digitChar (n % 10)] := by
  rw [natDigits]
  exact dif_neg h

theorem natDigits_inj (m n : Nat) (h : natDigits m = natDigits n) : m = n := by
  induction m using Nat.strong_induction_on generalizing n with
  | _ m ih =>
    by_cases hm : m < 10 <;> by_cases hn : n < 10
    · rw [natDigits_of_lt m hm, natDigits_of_lt n hn] at h
      simp only [List.cons.injEq] at h
      exact digitChar_inj m hm n hn h.1
    · rw [natDigits_of_lt m hm, natDigits_of_ge n hn] at h
      have := congrArg List.length h
      simp at this
      exact absurd this (natDigits_ne_nil _)
    · rw [natDigits_of_ge m hm, natDigits_of_lt n hn] at h
      have := congrArg List.length h
      simp at this
      exact absurd this (natDigits_ne_nil _)
    · rw [natDigits_of_ge m hm, natDigits_of_ge n hn] at h
      have hlen : ([Nat.digitChar (m % 10)] : List Char).length =
          ([Nat.digitChar (n % 10)] : List Char).length := rfl
      obtain ⟨h1, h2⟩ := List.append_inj' h hlen
      have hdiv : m / 10 = n / 10 :=
        ih (m / 10) (Nat.div_lt_self (by omega) (by omega)) (n / 10) h1
      have hmod : m % 10 = n % 10 := by
        simp only [List.cons.injEq] at h2
        exact digitChar_inj _ (Nat.mod_lt _ (by omega)) _ (Nat.mod_lt _ (by omega)) h2.1
      omega

theorem repr_inj (m n : Nat) (h : Nat.repr m = Nat.repr n) : m = n := by
  rw [repr_eq_natDigits, repr_eq_natDigits] at h
  exact natDigits_inj m n (by injection h)

theorem dash_notMem_repr_data (n : Nat) : '-' ∉ (Nat.repr n).data := by
  rw [repr_eq_natDigits]
  exact dash_notMem_natDigits n

/-- Cancellation at the last separator: if two character lists agree and each
ends in a `'-'`-free tail preceded by a `'-'`, the tails agree. -/
theorem append_dash_tail_inj (l1 : List Char) :
    ∀ (l2 t1 t2 : List Char), '-' ∉ t1 → '-' ∉ t2 →
      l1 ++ '-' :: t1 = l2 ++ '-' :: t2 → t1 = t2 := by
  induction l1 with
  | nil =>
    intro l2 t1 t2 h1 h2 h
    cases l2 with
    | nil => simpa using h
    | cons c l2' =>
      simp only [List.nil_append, List.cons_append, List.cons.injEq] at h
      exact absurd (h.2 ▸ List.mem_append_right l2' (List.mem_cons_self _ _)) h1
  | cons c l1' ih =>
    intro l2 t1 t2 h1 h2 h
    cases l2 with
    | nil =>
      simp only [List.cons_append, List.nil_append, List.cons.injEq] at h
      exact absurd (h.2 ▸ List.mem_append_right l1' (List.mem_cons_self _ _)) h2
    | cons d l2' =>
      simp only [List.cons_append, List.cons.injEq] at h
      exact ih l2' t1 t2 h1 h2 h.2

theorem dash_data : ("-" : String).data = ['-'] := rfl

/-- The folder path splits at the final hyphen: everything before the id,
then `'-'`, then the decimal digits of the id. -/
theorem ensure_disaster_folder_data (name : String) (sd : PyDate) (did : Nat) :
    (ensure_disaster_folder name sd did).data =
      (DISASTERS_ROOT ++ "/" ++ (strftimeY sd ++ "-" ++ slugify name)).data
        ++ '-' :: (Nat.repr did).data := by
  simp [ensure_disaster_folder, dash_data, List.append_assoc]

/-- Distinct disaster identifiers always get distinct folder paths, whatever
the names and start dates are: the identifier is the final hyphen-separated,
hyphen-free component of the path. -/
theorem ensure_disaster_folder_inj (name1 name2 : String) (sd1 sd2 : PyDate)
    (did1 did2 : Nat)
    (h : ensure_disaster_folder name1 sd1 did1 = ensure_disaster_folder name2 sd2 did2) :
    did1 = did2 := by
  have hd := congrArg String.data h
  rw [ensure_disaster_folder_data, ensure_disaster_folder_data] at hd
  have htail := append_dash_tail_inj _ _ _ _
    (dash_notMem_repr_data did1) (dash_notMem_repr_data did2) hd
  exact repr_inj did1 did2 (String.ext htail)

/-- C4: for every valid disaster registration, the assigned folder path is
deterministic given (name, start date, identifier) — `ensure_disaster_folder`
is a pure function of exactly those inputs — and unique per disaster: distinct
identifiers yield distinct paths.  The path is the disasters root joined with
`{year}-{slug}-{id}`; registering "Flood Relief 2024" starting 2024-03-01
yields folder name `2024-flood-relief-2024-{id}`. -/
theorem folder_path_unique_and_deterministic (name1 name2 : String)
    (sd1 sd2 : PyDate) (did1 did2 : Nat) :
    (did1 ≠ did2 →
      ensure_disaster_folder name1 sd1 did1 ≠ ensure_disaster_folder name2 sd2 did2)
    ∧ ensure_disaster_folder name1 sd1 did1 =
        DISASTERS_ROOT ++ "/" ++
          (strftimeY sd1 ++ "-" ++ slugify name1 ++ "-" ++ Nat.repr did1)
    ∧ ensure_disaster_folder "Flood Relief 2024" ⟨2024, 3, 1⟩ did1 =
        "Disasters/2024-flood-relief-2024-" ++ Nat.repr did1 := by
  refine ⟨fun hne h => hne (ensure_disaster_folder_inj _ _ _ _ _ _ h), rfl, ?_⟩
  apply String.ext
  rw [ensure_disaster_folder_data]
  simp [DISASTERS_ROOT, strftimeY]
  rw [show slugify "Flood Relief 2024" = "flood-relief-2024" from by decide,
    show Nat.repr 2024 = "2024" from by decide]
  rfl

/-- Witness for C4 at identifiers 1 and 2: the two folder paths differ, and
the example path evaluates as claimed for id 7. -/
theorem folder_path_unique_witness :
    ensure_disaster_folder "Flood Relief 2024" ⟨2024, 3, 1⟩ 1 ≠
      ensure_disaster_folder "Flood Relief 2024" ⟨2024, 3, 1⟩ 2
    ∧ ensure_disaster_folder "Flood Relief 2024" ⟨2024, 3, 1⟩ 7 =
        "Disasters/2024-flood-relief-2024-" ++ Nat.repr 7 :=
  ⟨(folder_path_unique_and_deterministic "Flood Relief 2024" "Flood Relief 2024"
      ⟨2024, 3, 1⟩ ⟨2024, 3, 1⟩ 1 2).1 (by decide),
   (folder_path_unique_and_deterministic "Flood Relief 2024" "Flood Relief 2024"
      ⟨2024, 3, 1⟩ ⟨2024, 3, 1⟩ 7 7).2.2⟩

theorem fromisoformat_empty : fromisoformat "" = none := by decide

/-- C2: a distribution request whose quantity exceeds the item's current
quantity fails with `InsufficientInventoryError` and leaves the tenant state —
item quantities, beneficiary table, distribution table — unchanged. -/
theorem distribute_insufficient_inventory (s : TenantState)
    (bnameRaw blocRaw bcontactRaw : String) (itemID : Nat) (qty : Int)
    (when : PyDate) (item : ReliefItem)
    (hname : pyStrip bnameRaw ≠ "") (hqty : 0 < qty)
    (hfind : s.items.find? (fun it => it.itemID == itemID) = some item)
    (hlt : item.quantity < qty) :
    distribute s bnameRaw blocRaw bcontactRaw itemID qty when =
      (.insufficientInventoryError, s) := by
  have hcond : ¬(pyStrip bnameRaw = "" ∨ qty ≤ 0) := by
    push_neg
    exact ⟨hname, by omega⟩
  simp [distribute, hcond, hfind, hlt]

/-- Witness for C2: one item with quantity 5, request for 9 units. -/
theorem distribute_insufficient_inventory_witness :
    distribute ⟨[], [⟨1, 1, "Rice", "", 5⟩], [], []⟩ "Jane Doe" "" "" 1 9 ⟨2024, 3, 1⟩ =
      (.insufficientInventoryError, ⟨[], [⟨1, 1, "Rice", "", 5⟩], [], []⟩) :=
  distribute_insufficient_inventory ⟨[], [⟨1, 1, "Rice", "", 5⟩], [], []⟩
    "Jane Doe" "" "" 1 9 ⟨2024, 3, 1⟩ ⟨1, 1, "Rice", "", 5⟩
    (by decide) (by decide) (by decide) (by decide)

/-- C3: a disaster registration with a missing name, a missing start date, or
a start date that does not parse as a calendar date fails with
`ValidationError` and persists no `Disaster` row. -/
theorem create_disaster_validation (reg : List Disaster)
    (nameRaw typeRaw locationRaw startRaw endRaw severityRaw : String)
    (tableSetupOk : Bool)
    (h : pyStrip nameRaw = "" ∨ pyStrip startRaw = "" ∨ fromisoformat (pyStrip startRaw) = none) :
    create_disaster reg nameRaw typeRaw locationRaw startRaw endRaw severityRaw
        tableSetupOk = (.validationError, reg) := by
  rcases h with h | h | h
  · simp [create_disaster, h]
  · simp [create_disaster, h]
  · by_cases h1 : pyStrip nameRaw = "" ∨ pyStrip startRaw = ""
    · rcases h1 with h1 | h1 <;> simp [create_disaster, h1]
    · push_neg at h1
      simp [create_disaster, h1.1, h1.2, h]

/-- Witness for C3: empty name, and separately a malformed start date. -/
theorem create_disaster_validation_witness :
    create_disaster [] "" "" "" "2024-03-01" "" "" true = (.validationError, [])
    ∧ create_disaster [] "Quake" "" "" "2024-13-01" "" "" true = (.validationError, []) :=
  ⟨create_disaster_validation [] "" "" "" "2024-03-01" "" "" true (Or.inl (by decide)),
   create_disaster_validation [] "Quake" "" "" "2024-13-01" "" "" true
     (Or.inr (Or.inr (by decide)))⟩

/-- C10: a registration with valid name and start date but a non-empty,
unparseable end date persists no `Disaster` row; the failure takes the generic
catch-all path (rollback, generic message), not the `ValidationError` reserved
for missing/malformed name and start date. -/
theorem create_disaster_bad_end_date (reg : List Disaster)
    (nameRaw typeRaw locationRaw startRaw endRaw severityRaw : String)
    (tableSetupOk : Bool) (sd : PyDate)
    (hname : pyStrip nameRaw ≠ "")
    (hstart : fromisoformat (pyStrip startRaw) = some sd)
    (hend_ne : pyStrip endRaw ≠ "")
    (hend : fromisoformat (pyStrip endRaw) = none) :
    create_disaster reg nameRaw typeRaw locationRaw startRaw endRaw severityRaw
        tableSetupOk = (.genericError, reg)
    ∧ (CreateDisasterResult.genericError ≠ .validationError) := by
  have hstart_ne : pyStrip startRaw ≠ "" := by
    intro h
    rw [h, fromisoformat_empty] at hstart
    exact Option.noConfusion hstart
  refine ⟨?_, by simp⟩
  simp [create_disaster, hname, hstart_ne, hstart, hend_ne, hend]

/-- Witness for C10: valid name and start date, end date "2024-13-40". -/
theorem create_disaster_bad_end_date_witness :
    create_disaster [] "Quake" "" "" "2024-03-01" "2024-13-40" "" true =
      (.genericError, []) :=
  (create_disaster_bad_end_date [] "Quake" "" "" "2024-03-01" "2024-13-40" "" true
    ⟨2024, 3, 1⟩ (by decide) (by decide) (by decide) (by decide)).1

/-- C9: when tenant-table setup fails after the disaster row has been
committed, the outcome is the warning path and the already-committed
`Disaster` row remains persisted (partial-success policy). -/
theorem create_disaster_partial_success (reg : List Disaster)
    (nameRaw typeRaw locationRaw startRaw endRaw severityRaw : String)
    (sd : PyDate) (ed : Option PyDate)
    (hname : pyStrip nameRaw ≠ "")
    (hstart : fromisoformat (pyStrip startRaw) = some sd)
    (hend : (if pyStrip endRaw = "" then some none
             else (fromisoformat (pyStrip endRaw)).map some) = some ed) :
    create_disaster reg nameRaw typeRaw locationRaw startRaw endRaw severityRaw
        false =
      (.okTableWarning (reg.length + 1),
       reg ++ [⟨reg.length + 1, pyStrip nameRaw, pyStrip typeRaw, pyStrip locationRaw,
               sd, ed, pyStrip severityRaw,
               ensure_disaster_folder (pyStrip nameRaw) sd (reg.length + 1)⟩]) := by
  have hstart_ne : pyStrip startRaw ≠ "" := by
    intro h
    rw [h, fromisoformat_empty] at hstart
    exact Option.noConfusion hstart
  simp [create_disaster, hname, hstart_ne, hstart, hend]

/-- Witness for C9: a valid registration whose table setup fails keeps the
committed row. -/
theorem create_disaster_partial_success_witness :
    create_disaster [] "Quake" "" "" "2024-03-01" "" "" false =
      (.okTableWarning 1,
       [⟨1, "Quake", "", "", ⟨2024, 3, 1⟩, none, "",
         ensure_disaster_folder "Quake" ⟨2024, 3, 1⟩ 1⟩]) :=
  create_disaster_partial_success [] "Quake" "" "" "2024-03-01" "" ""
    ⟨2024, 3, 1⟩ none (by decide) (by decide) (by decide)

theorem mem_createTableChecked (a t : String) (c : List String) :
    a ∈ createTableChecked c t ↔ a ∈ c ∨ a = t := by
  by_cases h : t ∈ c
  · simp only [createTableChecked, if_pos h]
    exact ⟨Or.inl, fun h' => h'.elim id (fun e => e ▸ h)⟩
  · simp [createTableChecked, if_neg h]

theorem mem_foldl_createTableChecked (names : List String) (c : List String)
    (a : String) :
    a ∈ names.foldl createTableChecked c ↔ a ∈ c ∨ a ∈ names := by
  induction names generalizing c with
  | nil => simp
  | cons t names ih =>
    simp [List.foldl_cons, ih, mem_createTableChecked, or_assoc]

theorem foldl_createTableChecked_of_all_mem (names : List String)
    (c : List String) (h : ∀ t ∈ names, t ∈ c) :
    names.foldl createTableChecked c = c := by
  induction names generalizing c with
  | nil => rfl
  | cons t names ih =>
    rw [List.foldl_cons, createTableChecked, if_pos (h t (List.mem_cons_self t names))]
    exact ih c (fun u hu => h u (List.mem_cons_of_mem t hu))

theorem nodup_createTableChecked (c : List String) (t : String)
    (h : c.Nodup) : (createTableChecked c t).Nodup := by
  by_cases ht : t ∈ c
  · simpa [createTableChecked, if_pos ht] using h
  · simp [createTableChecked, if_neg ht, List.nodup_append, h, ht]

theorem nodup_foldl_createTableChecked (names : List String) (c : List String)
    (h : c.Nodup) : (names.foldl createTableChecked c).Nodup := by
  induction names generalizing c with
  | nil => exact h
  | cons t names ih => exact ih _ (nodup_createTableChecked c t h)

/-- C5: tenant-table creation is idempotent — re-running the four
`checkfirst` creates changes nothing, preserves the no-duplicate-tables
invariant of the catalog, and afterwards `check_tenant_tables_exist` reports
all four tables present. -/
theorem create_tenant_tables_idempotent (catalog : List String) (disaster_id : Nat) :
    create_tenant_tables_catalog (create_tenant_tables_catalog catalog disaster_id)
        disaster_id = create_tenant_tables_catalog catalog disaster_id
    ∧ (catalog.Nodup → (create_tenant_tables_catalog catalog disaster_id).Nodup)
    ∧ check_tenant_tables_exist (create_tenant_tables_catalog catalog disaster_id)
        disaster_id = true := by
  refine ⟨?_, ?_, ?_⟩
  · exact foldl_createTableChecked_of_all_mem _ _ (fun t ht =>
      (mem_foldl_createTableChecked _ _ _).mpr (Or.inr ht))
  · exact fun h => nodup_foldl_createTableChecked _ _ h
  · simp only [check_tenant_tables_exist, List.all_eq_true]
    intro t ht
    simp only [List.contains, List.elem_eq_mem, decide_eq_true_eq]
    exact (mem_foldl_createTableChecked _ _ _).mpr (Or.inr ht)

/-- Witness for C5 at the empty catalog and disaster id 1 (discharging the
`Nodup` hypothesis of the second conjunct). -/
theorem create_tenant_tables_idempotent_witness :
    (create_tenant_tables_catalog [] 1).Nodup
    ∧ create_tenant_tables_catalog (create_tenant_tables_catalog [] 1) 1 =
        create_tenant_tables_catalog [] 1 :=
  ⟨(create_tenant_tables_idempotent [] 1).2.1 List.nodup_nil,
   (create_tenant_tables_idempotent [] 1).1⟩

/-- C6: the table-creation loop makes at most 3 attempts; it retries (with
sleeps of 500 ms then 1000 ms — the base delay doubling after each failed
attempt) solely when the failure is the "database is locked" class; any
`OperationalError` of another class or any non-`OperationalError` (data)
error propagates immediately with no retry; three consecutive lock failures
exhaust the retries and propagate the lock error. -/
theorem create_tenant_tables_retry_policy (f : Nat → AttemptResult) :
    (create_tenant_tables_retry f).attempts ≤ max_retries
    ∧ (f 0 = .success → create_tenant_tables_retry f = .success 1 [])
    ∧ (f 0 = .opErrorOther →
        create_tenant_tables_retry f = .failure .opErrorOther 1 [])
    ∧ (f 0 = .dataError →
        create_tenant_tables_retry f = .failure .dataError 1 [])
    ∧ (f 0 = .opErrorLocked → f 1 = .success →
        create_tenant_tables_retry f = .success 2 [500])
    ∧ (f 0 = .opErrorLocked → f 1 = .opErrorOther →
        create_tenant_tables_retry f = .failure .opErrorOther 2 [500])
    ∧ (f 0 = .opErrorLocked → f 1 = .dataError →
        create_tenant_tables_retry f = .failure .dataError 2 [500])
    ∧ (f 0 = .opErrorLocked → f 1 = .opErrorLocked → f 2 = .success →
        create_tenant_tables_retry f = .success 3 [500, 1000])
    ∧ (f 0 = .opErrorLocked → f 1 = .opErrorLocked → f 2 = .opErrorLocked →
        create_tenant_tables_retry f = .failure .opErrorLocked 3 [500, 1000]) := by
  refine ⟨?_, ?_, ?_, ?_, ?_, ?_, ?_, ?_, ?_⟩
  · rcases h0 : f 0 <;> rcases h1 : f 1 <;> rcases h2 : f 2 <;>
      simp [create_tenant_tables_retry, retryGo, max_retries, initial_retry_delay,
        h0, h1, h2, RetryOutcome.attempts]
  all_goals intros
  all_goals
    simp [create_tenant_tables_retry, retryGo, max_retries, initial_retry_delay,
      RetryOutcome.attempts, *]

/-- Witness for C6: concrete attempt-outcome schedules — two locks then
success yields 3 attempts with delays [500, 1000]; an immediate data error
propagates with no retry and no sleep. -/
theorem create_tenant_tables_retry_policy_witness :
    create_tenant_tables_retry
        (fun n => if n < 2 then .opErrorLocked else .success) =
      .success 3 [500, 1000]
    ∧ create_tenant_tables_retry (fun _ => .dataError) =
        .failure .dataError 1 [] :=
  ⟨(create_tenant_tables_retry_policy
      (fun n => if n < 2 then .opErrorLocked else .success)).2.2.2.2.2.2.2.1
      (by decide) (by decide) (by decide),
   (create_tenant_tables_retry_policy (fun _ => .dataError)).2.2.2.1 rfl⟩

/-- C8: the tenant model handle is cached per disaster id: a cached id is
answered with the identical handle, no class construction and no I/O; the
handle is placed in the cache by `create_tenant_models`, hence before the
table-creation I/O of `create_tenant_tables`; a second request returns the
identical cached handle; and the cache is never evicted — existing entries
survive every call. -/
theorem tenant_model_cache_behavior (cache : ModelCache) (catalog : List String)
    (disaster_id : Nat) :
    (∀ h, List.lookup ("disaster_" ++ Nat.repr disaster_id) cache = some h →
      create_tenant_models cache disaster_id = (h, cache, []))
    ∧ List.lookup ("disaster_" ++ Nat.repr disaster_id)
        (create_tenant_models cache disaster_id).2.1 =
        some (create_tenant_models cache disaster_id).1
    ∧ get_tenant_models (create_tenant_models cache disaster_id).2.1 disaster_id =
        ((create_tenant_models cache disaster_id).1,
         (create_tenant_models cache disaster_id).2.1, [])
    ∧ (∀ k v, List.lookup k cache = some v →
        List.lookup k (create_tenant_models cache disaster_id).2.1 = some v)
    ∧ create_tenant_tables_cached cache catalog disaster_id =
        ((create_tenant_models cache disaster_id).1,
         (create_tenant_models cache disaster_id).2.1,
         create_tenant_tables_catalog catalog disaster_id,
         (create_tenant_models cache disaster_id).2.2 ++
           [.tableCreation disaster_id])
    ∧ (∀ e ∈ (create_tenant_models cache disaster_id).2.2,
        e = .constructModels disaster_id) := by
  rcases hlk : List.lookup ("disaster_" ++ Nat.repr disaster_id) cache with _ | h
  · refine ⟨?_, ?_, ?_, ?_, rfl, ?_⟩
    · intro h hsome
      exact Option.noConfusion hsome
    · simp [create_tenant_models, hlk, List.lookup]
    · simp [get_tenant_models, create_tenant_models, hlk, List.lookup]
    · intro k v hk
      have hne : (k == ("disaster_" ++ Nat.repr disaster_id)) = false := by
        rcases hb : k == ("disaster_" ++ Nat.repr disaster_id)
        · rfl
        · rw [eq_of_beq hb, hlk] at hk
          exact Option.noConfusion hk
      simp [create_tenant_models, hlk, List.lookup, hne, hk]
    · simp [create_tenant_models, hlk]
  · refine ⟨?_, ?_, ?_, ?_, rfl, ?_⟩
    · intro h' hsome
      injection hsome with hh
      simp [create_tenant_models, hlk, hh]
    · simp [create_tenant_models, hlk]
    · simp [get_tenant_models, create_tenant_models, hlk]
    · intro k v hk
      simp [create_tenant_models, hlk, hk]
    · simp [create_tenant_models, hlk]

/-- Witness for C8 at the empty cache and disaster id 1: the handle is cached
after the first call and the second call returns it unchanged with no
construction event. -/
theorem tenant_model_cache_behavior_witness :
    List.lookup ("disaster_" ++ Nat.repr 1) (create_tenant_models [] 1).2.1 =
      some (create_tenant_models [] 1).1
    ∧ get_tenant_models (create_tenant_models [] 1).2.1 1 =
        ((create_tenant_models [] 1).1, (create_tenant_models [] 1).2.1, []) :=
  ⟨(tenant_model_cache_behavior [] [] 1).2.1,
   (tenant_model_cache_behavior [] [] 1).2.2.1⟩

theorem find?_map_update_quantity (l : List ReliefItem) (itemID : Nat)
    (item : ReliefItem) (q : ReliefItem → Int)
    (hfind : l.find? (fun it => it.itemID == itemID) = some item) :
    (l.map (fun it => if it.itemID = itemID
        then { it with quantity := q it } else it)).find?
      (fun it => it.itemID == itemID) = some { item with quantity := q item } := by
  induction l with
  | nil => simp [List.find?] at hfind
  | cons a l ih =>
    rcases hba : (a.itemID == itemID) with _ | _
    · have ha : ¬ a.itemID = itemID := by
        intro he
        rw [he] at hba
        simp at hba
      rw [List.find?_cons, hba] at hfind
      rw [List.map_cons, if_neg ha, List.find?_cons, hba]
      exact ih hfind
    · have ha : a.itemID = itemID := by
        exact eq_of_beq hba
      rw [List.find?_cons, hba] at hfind
      injection hfind with hfind
      subst hfind
      rw [List.map_cons, if_pos ha, List.find?_cons]
      have : (({ a with quantity := q a } : ReliefItem).itemID == itemID) = true := by
        simpa using hba
      rw [this]

/-- C1: a valid distribution request (non-empty beneficiary name, quantity
`Q > 0`, item present with quantity `N`, `Q ≤ N`) inserts exactly one new
`Beneficiary` row and exactly one new `Distribution` row referencing that
beneficiary and the item, and sets the item's quantity to `max(0, N - Q)`;
the three effects become durable through the single final `commit`, and a
run cut short anywhere before that commit leaves the durable state exactly
as it was (nothing persists). -/
theorem distribute_valid (s : TenantState) (bnameRaw blocRaw bcontactRaw : String)
    (itemID : Nat) (qty : Int) (when : PyDate) (item : ReliefItem)
    (hname : pyStrip bnameRaw ≠ "") (hqty : 0 < qty)
    (hfind : s.items.find? (fun it => it.itemID == itemID) = some item)
    (hle : qty ≤ item.quantity) :
    distribute s bnameRaw blocRaw bcontactRaw itemID qty when =
      (.ok (s.distributions.length + 1),
       { warehouses := s.warehouses,
         items := s.items.map (fun it => if it.itemID = itemID
           then { it with quantity := max 0 (it.quantity - qty) } else it),
         beneficiaries := s.beneficiaries ++
           [⟨s.beneficiaries.length + 1, pyStrip bnameRaw, pyStrip blocRaw,
             pyStrip bcontactRaw⟩],
         distributions := s.distributions ++
           [⟨s.distributions.length + 1, s.beneficiaries.length + 1, itemID,
             qty, when⟩] })
    ∧ (s.items.map (fun it => if it.itemID = itemID
         then { it with quantity := max 0 (it.quantity - qty) } else it)).find?
        (fun it => it.itemID == itemID) =
        some { item with quantity := max 0 (item.quantity - qty) }
    ∧ (∀ k, k < (distributeOps s (pyStrip bnameRaw) (pyStrip blocRaw)
          (pyStrip bcontactRaw) itemID qty when).length →
        runOps s ((distributeOps s (pyStrip bnameRaw) (pyStrip blocRaw)
          (pyStrip bcontactRaw) itemID qty when).take k) = s) := by
  have hcond : ¬(pyStrip bnameRaw = "" ∨ qty ≤ 0) := by
    push_neg
    exact ⟨hname, by omega⟩
  have hnl : ¬ item.quantity < qty := by omega
  refine ⟨?_, find?_map_update_quantity s.items itemID item _ hfind, ?_⟩
  · simp [distribute, hcond, hfind, hnl, distributeOps, runOps, runOpsAux, applyOp]
  · intro k hk
    simp only [distributeOps, List.length_cons, List.length_nil] at hk
    interval_cases k <;>
      simp [distributeOps, runOps, runOpsAux, applyOp, List.take]

/-- Witness for C1: distributing 50 units of a 500-unit item to "Jane Doe"
appends one beneficiary, one distribution referencing both, and leaves the
item at 450. -/
theorem distribute_valid_witness :
    distribute ⟨[⟨1, "Central Depot", 100⟩], [⟨1, 1, "Rice", "", 500⟩], [], []⟩
        "Jane Doe" "" "" 1 50 ⟨2024, 3, 1⟩ =
      (.ok 1,
       { warehouses := [⟨1, "Central Depot", 100⟩],
         items := [⟨1, 1, "Rice", "", 450⟩].map (fun it => if it.itemID = 1
           then { it with quantity := max 0 (it.quantity - 0) } else it),
         beneficiaries := [⟨1, "Jane Doe", "", ""⟩],
         distributions := [⟨1, 1, 1, 50, ⟨2024, 3, 1⟩⟩] }) := by
  have h := (distribute_valid
    ⟨[⟨1, "Central Depot", 100⟩], [⟨1, 1, "Rice", "", 500⟩], [], []⟩
    "Jane Doe" "" "" 1 50 ⟨2024, 3, 1⟩ ⟨1, 1, "Rice", "", 500⟩
    (by decide) (by decide) (by decide) (by decide)).1
  rw [h]
  decide

/-- C7: an add-resources request with an empty warehouse location, empty item
name, or non-positive item quantity fails with `ValidationError` and changes
nothing; a valid request inserts the warehouse and then the item referencing
the newly allocated warehouse id as one transaction whose effects appear only
at the final `commit` — a run cut short before the commit leaves the durable
state exactly as it was. -/
theorem add_resources_spec (s : TenantState) (locationRaw : String)
    (capacity : Int) (itemNameRaw itemCatRaw : String) (itemQty : Int) :
    ((pyStrip locationRaw = "" ∨ pyStrip itemNameRaw = "" ∨ itemQty ≤ 0) →
      add_resources s locationRaw capacity itemNameRaw itemCatRaw itemQty =
        (.validationError, s))
    ∧ (pyStrip locationRaw ≠ "" → pyStrip itemNameRaw ≠ "" → 0 < itemQty →
      add_resources s locationRaw capacity itemNameRaw itemCatRaw itemQty =
        (.ok (s.warehouses.length + 1) (s.items.length + 1),
         { s with
           warehouses := s.warehouses ++
             [⟨s.warehouses.length + 1, pyStrip locationRaw, max 0 capacity⟩],
           items := s.items ++
             [⟨s.items.length + 1, s.warehouses.length + 1, pyStrip itemNameRaw,
               pyStrip itemCatRaw, itemQty⟩] }))
    ∧ (∀ k, k < (addResourcesOps s (pyStrip locationRaw) capacity
          (pyStrip itemNameRaw) (pyStrip itemCatRaw) itemQty).length →
        runOps s ((addResourcesOps s (pyStrip locationRaw) capacity
          (pyStrip itemNameRaw) (pyStrip itemCatRaw) itemQty).take k) = s) := by
  refine ⟨?_, ?_, ?_⟩
  · intro h
    simp [add_resources, h]
  · intro h1 h2 h3
    have hcond : ¬(pyStrip locationRaw = "" ∨ pyStrip itemNameRaw = "" ∨ itemQty ≤ 0) := by
      push_neg
      exact ⟨h1, h2, by omega⟩
    simp [add_resources, hcond, addResourcesOps, runOps, runOpsAux, applyOp]
  · intro k hk
    simp only [addResourcesOps, List.length_cons, List.length_nil] at hk
    interval_cases k <;>
      simp [addResourcesOps, runOps, runOpsAux, applyOp, List.take]

/-- Witness for C7: adding warehouse "Central Depot" (capacity 100) with item
"Rice" (quantity 500) to an empty partition persists both rows, the item
referencing warehouse id 1; an empty location is rejected unchanged. -/
theorem add_resources_spec_witness :
    add_resources ⟨[], [], [], []⟩ "Central Depot" 100 "Rice" "" 500 =
      (.ok 1 1,
       { warehouses := [⟨1, "Central Depot", 100⟩],
         items := [⟨1, 1, "Rice", "", 500⟩],
         beneficiaries := [], distributions := [] })
    ∧ add_resources ⟨[], [], [], []⟩ "" 100 "Rice" "" 500 =
        (.validationError, ⟨[], [], [], []⟩) := by
  constructor
  · have h := (add_resources_spec ⟨[], [], [], []⟩ "Central Depot" 100 "Rice" "" 500).2.1
      (by decide) (by decide) (by decide)
    rw [h]
    decide
  · exact (add_resources_spec ⟨[], [], [], []⟩ "" 100 "Rice" "" 500).1
      (Or.inl (by decide))

end ReliefMatrix
